import Mathlib

/-!
Verification of the MetaMask connection-phase state machine of rubas-w3app.

The development shallowly embeds the two Zustand stores
(`src/stores/useConnectionStore.ts` and `src/stores/usePhaseTimelineStore.ts`)
together with the persistence `migrate` step.  Conventions of the embedding:

* Instants of time are modelled as `Nat` (milliseconds since the epoch, the
  value of `Date.now()`).  The timeline store renders instants as ISO-8601
  strings (`new Date().toISOString()`); since that rendering is an injective
  image of the millisecond clock and the program only stores and compares
  these values, the embedding keeps the instant itself.
* Every store operation is synchronous; each operation receives the single
  instant `now` returned by the clock while it runs.
* `null`/absent JavaScript values are modelled with `Option`.
-/

set_option autoImplicit false

namespace RubasW3

/-- Connection phases, from `ConnectionPhases` in `src/constants/connectionPhases.ts`:
`checkIfMetaMaskInstalled`, `checkIfMetaMaskUnlocked`,
`checkIfMetaMaskConnectedToBSC`, `checkOutMetaMaskAccount`. -/
inductive ConnectionPhase where
  | checkIfMetaMaskInstalled
  | checkIfMetaMaskUnlocked
  | checkIfMetaMaskConnectedToBSC
  | checkOutMetaMaskAccount
  deriving DecidableEq, Fintype, Repr

/-- Phase statuses, from `PhaseStatuses` in `src/constants/connectionPhases.ts`:
`waiting`, `inprogress`, `success`, `fail`, `cancelled`. -/
inductive PhaseStatus where
  | waiting
  | inprogress
  | success
  | fail
  | cancelled
  deriving DecidableEq, Fintype, Repr

/-- The ordered list of phases, from `phaseOrder` in
`src/stores/useConnectionStore.ts` (lines 169-174). -/
def phaseOrder : List ConnectionPhase :=
  [ConnectionPhase.checkIfMetaMaskInstalled,
   ConnectionPhase.checkIfMetaMaskUnlocked,
   ConnectionPhase.checkIfMetaMaskConnectedToBSC,
   ConnectionPhase.checkOutMetaMaskAccount]

/-- Initial statuses (`initialStatuses` in `useConnectionStore.ts`):
every phase starts at `waiting`. -/
def initialStatuses : ConnectionPhase → PhaseStatus
  | ConnectionPhase.checkIfMetaMaskInstalled => PhaseStatus.waiting
  | ConnectionPhase.checkIfMetaMaskUnlocked => PhaseStatus.waiting
  | ConnectionPhase.checkIfMetaMaskConnectedToBSC => PhaseStatus.waiting
  | ConnectionPhase.checkOutMetaMaskAccount => PhaseStatus.waiting

/-- Initial per-phase timestamps (`initialTimestamps` in `useConnectionStore.ts`):
every phase starts at `null`. -/
def initialTimestamps : ConnectionPhase → Option Nat
  | ConnectionPhase.checkIfMetaMaskInstalled => none
  | ConnectionPhase.checkIfMetaMaskUnlocked => none
  | ConnectionPhase.checkIfMetaMaskConnectedToBSC => none
  | ConnectionPhase.checkOutMetaMaskAccount => none

/-- The timeline table of `usePhaseTimelineStore.ts`: one `timestamp | null`
slot per (phase, status) pair. -/
def Timeline : Type := ConnectionPhase → PhaseStatus → Option Nat

/-- `createInitialTimeline` of `usePhaseTimelineStore.ts`: every slot `null`. -/
def createInitialTimeline : Timeline := fun _ _ => none

/-- `setTimestamp(phase, status, timestamp?)` of `usePhaseTimelineStore.ts`:
writes `timestamp` into `timeline[phase][status]`.  The source's optional
argument defaults to the current instant; every caller in the repository
omits it, so connection-store calls pass `some now` here. -/
def setTimestamp (tl : Timeline) (phase : ConnectionPhase) (status : PhaseStatus)
    (timestamp : Option Nat) : Timeline :=
  fun p s => if p = phase ∧ s = status then timestamp else tl p s

/-- `resetTimeline()` of `usePhaseTimelineStore.ts`: every slot back to `null`. -/
def resetTimeline (_tl : Timeline) : Timeline := createInitialTimeline

/-- The connection-store state fields (`ConnectionStoreState` data part in
`useConnectionStore.ts`). -/
structure ConnectionState where
  firstTimeConnection : Bool
  lastSuccessfulConnection : Option Nat
  currentPhase : ConnectionPhase
  phaseStatuses : ConnectionPhase → PhaseStatus
  phaseTimestamps : ConnectionPhase → Option Nat

/-- The pair of aggregates the operations act on: the connection store plus
the external timeline store it mirrors into. -/
structure World where
  conn : ConnectionState
  timeline : Timeline

/-- Pointwise update of a status map, the embedding of the object-spread
update `{ ...state.phaseStatuses, [phase]: status }`. -/
def updStatus (f : ConnectionPhase → PhaseStatus) (phase : ConnectionPhase)
    (status : PhaseStatus) : ConnectionPhase → PhaseStatus :=
  fun q => if q = phase then status else f q

/-- Pointwise update of a timestamp map, the embedding of the object-spread
update `{ ...state.phaseTimestamps, [phase]: t }`. -/
def updStamp (f : ConnectionPhase → Option Nat) (phase : ConnectionPhase)
    (t : Option Nat) : ConnectionPhase → Option Nat :=
  fun q => if q = phase then t else f q

/-- The default state of the connection store (`useConnectionStore.ts`
lines 252-258): first connection, no previous success, first phase current,
all phases waiting with `null` timestamps. -/
def defaultConnectionState : ConnectionState where
  firstTimeConnection := true
  lastSuccessfulConnection := none
  currentPhase := ConnectionPhase.checkIfMetaMaskInstalled
  phaseStatuses := initialStatuses
  phaseTimestamps := initialTimestamps

/-- The all-fresh world: default connection state and empty timeline. -/
def initialWorld : World where
  conn := defaultConnectionState
  timeline := createInitialTimeline

/-- `firstStart()` (`useConnectionStore.ts` lines 296-315): mirror
(first phase, inprogress) to the timeline, set the first phase current and
in progress with timestamp `now`, clear `firstTimeConnection`.  Other phases
are not touched. -/
def firstStart (w : World) (now : Nat) : World where
  conn :=
    { w.conn with
      currentPhase := ConnectionPhase.checkIfMetaMaskInstalled
      phaseStatuses := updStatus w.conn.phaseStatuses
        ConnectionPhase.checkIfMetaMaskInstalled PhaseStatus.inprogress
      phaseTimestamps := updStamp w.conn.phaseTimestamps
        ConnectionPhase.checkIfMetaMaskInstalled (some now)
      firstTimeConnection := false }
  timeline := setTimestamp w.timeline ConnectionPhase.checkIfMetaMaskInstalled
    PhaseStatus.inprogress (some now)

/-- `reStart()` (`useConnectionStore.ts` lines 339-361): clear the whole
timeline, then as `firstStart` but without touching `firstTimeConnection`. -/
def reStart (w : World) (now : Nat) : World where
  conn :=
    { w.conn with
      currentPhase := ConnectionPhase.checkIfMetaMaskInstalled
      phaseStatuses := updStatus w.conn.phaseStatuses
        ConnectionPhase.checkIfMetaMaskInstalled PhaseStatus.inprogress
      phaseTimestamps := updStamp w.conn.phaseTimestamps
        ConnectionPhase.checkIfMetaMaskInstalled (some now) }
  timeline := setTimestamp (resetTimeline w.timeline)
    ConnectionPhase.checkIfMetaMaskInstalled PhaseStatus.inprogress (some now)

/-- `goOn()` (`useConnectionStore.ts` lines 390-430): mark the current phase
`success` (timestamped, mirrored), advance to the next phase of `phaseOrder`
if one exists (set `inprogress`, timestamped, mirrored); when the current
phase is the last one, stay put and set `lastSuccessfulConnection := now`. -/
def goOn (w : World) (now : Nat) : World :=
  let currentPhase := w.conn.currentPhase
  let currentIndex := phaseOrder.indexOf currentPhase
  let isLast : Bool := currentIndex == phaseOrder.length - 1
  let nextPhase : Option ConnectionPhase :=
    if isLast then none else phaseOrder.get? (currentIndex + 1)
  let updatedStatuses := updStatus w.conn.phaseStatuses currentPhase PhaseStatus.success
  let updatedTimestamps := updStamp w.conn.phaseTimestamps currentPhase (some now)
  let tl := setTimestamp w.timeline currentPhase PhaseStatus.success (some now)
  { conn :=
      { w.conn with
        currentPhase := nextPhase.getD currentPhase
        phaseStatuses :=
          match nextPhase with
          | some np => updStatus updatedStatuses np PhaseStatus.inprogress
          | none => updatedStatuses
        phaseTimestamps :=
          match nextPhase with
          | some np => updStamp updatedTimestamps np (some now)
          | none => updatedTimestamps
        lastSuccessfulConnection :=
          if isLast then some now else w.conn.lastSuccessfulConnection }
    timeline :=
      match nextPhase with
      | some np => setTimestamp tl np PhaseStatus.inprogress (some now)
      | none => tl }

/-- `goFail()` (`useConnectionStore.ts` lines 460-478): mark the current
phase `fail` with timestamp `now`, mirrored; nothing else changes. -/
def goFail (w : World) (now : Nat) : World where
  conn :=
    { w.conn with
      phaseStatuses := updStatus w.conn.phaseStatuses w.conn.currentPhase PhaseStatus.fail
      phaseTimestamps := updStamp w.conn.phaseTimestamps w.conn.currentPhase (some now) }
  timeline := setTimestamp w.timeline w.conn.currentPhase PhaseStatus.fail (some now)

/-- `cancel()` (`useConnectionStore.ts` lines 501-519): mark the current
phase `cancelled` with timestamp `now`, mirrored; nothing else changes. -/
def cancel (w : World) (now : Nat) : World where
  conn :=
    { w.conn with
      phaseStatuses := updStatus w.conn.phaseStatuses w.conn.currentPhase PhaseStatus.cancelled
      phaseTimestamps := updStamp w.conn.phaseTimestamps w.conn.currentPhase (some now) }
  timeline := setTimestamp w.timeline w.conn.currentPhase PhaseStatus.cancelled (some now)

/-- `setPhaseStatus(phase, status)` (`useConnectionStore.ts` lines 542-567):
for a status other than `waiting` the phase is timestamped `now` and the
pair is mirrored to the timeline; for `waiting` the existing timestamp is
kept and the timeline is not updated. -/
def setPhaseStatus (w : World) (phase : ConnectionPhase) (status : PhaseStatus)
    (now : Nat) : World :=
  let newTimestamp : Option Nat :=
    if status ≠ PhaseStatus.waiting then some now else w.conn.phaseTimestamps phase
  { conn :=
      { w.conn with
        phaseStatuses := updStatus w.conn.phaseStatuses phase status
        phaseTimestamps := updStamp w.conn.phaseTimestamps phase newTimestamp }
    timeline :=
      if status ≠ PhaseStatus.waiting then setTimestamp w.timeline phase status (some now)
      else w.timeline }

/-- `resetStatuses()` (`useConnectionStore.ts` lines 592-604): clear the
timeline, return to the first phase with all statuses `waiting` and all
timestamps `null`; `firstTimeConnection` and `lastSuccessfulConnection`
are untouched. -/
def resetStatuses (w : World) : World where
  conn :=
    { w.conn with
      currentPhase := ConnectionPhase.checkIfMetaMaskInstalled
      phaseStatuses := initialStatuses
      phaseTimestamps := initialTimestamps }
  timeline := resetTimeline w.timeline

/-- `fullReset()` (`useConnectionStore.ts` lines 629-643): everything
`resetStatuses` does, plus `firstTimeConnection := true` and
`lastSuccessfulConnection := null`. -/
def fullReset (w : World) : World where
  conn :=
    { firstTimeConnection := true
      lastSuccessfulConnection := none
      currentPhase := ConnectionPhase.checkIfMetaMaskInstalled
      phaseStatuses := initialStatuses
      phaseTimestamps := initialTimestamps }
  timeline := resetTimeline w.timeline

/-- `getPhaseInfo()` result (`PhaseInfo` in `useConnectionStore.ts`). -/
structure PhaseInfo where
  phase : ConnectionPhase
  status : PhaseStatus
  timestamp : Option Nat

/-- `getPhaseInfo()` (`useConnectionStore.ts` lines 669-676): pure read of
the current phase, its status and its timestamp. -/
def getPhaseInfo (w : World) : PhaseInfo where
  phase := w.conn.currentPhase
  status := w.conn.phaseStatuses w.conn.currentPhase
  timestamp := w.conn.phaseTimestamps w.conn.currentPhase

/-- The two fields the persist middleware stores under `connection-storage`
(`partialize` in `useConnectionStore.ts` lines 701-704). -/
structure PersistedConnectionFields where
  firstTimeConnection : Bool
  lastSuccessfulConnection : Option Nat

/-- The staleness test of `useConnectionStore.ts` lines 262-269:
`diffMinutes > CONNECTION_RESET_TIMEOUT_MINUTES` where `diffMinutes` is
`last ? (now - last) / 1000 / 60 : Infinity`.  JavaScript truthiness makes
both `null` and the numeric timestamp `0` falsy, so both yield an infinite
elapsed time and the comparison is true.  For a non-zero timestamp, over
the exact rationals `(now - last) / 60000 > T` holds iff
`now - last > T * 60000`, which is the comparison used here.
`CONNECTION_RESET_TIMEOUT_MINUTES` lives in `src/constants/connection.ts`,
which is not among the sources, so the timeout is a parameter throughout. -/
def shouldResetAt (last : Option Nat) (now : Nat) (timeoutMinutes : Nat) : Bool :=
  match last with
  | none => true
  | some 0 => true
  | some l => decide ((now : Int) - (l : Int) > (timeoutMinutes : Int) * 60000)

/-- Store construction as the program actually runs it
(`useConnectionStore.ts` lines 245-274 under the zustand persist
middleware).  Inside the creator `get()` is still undefined — zustand
installs the state only after the creator returns — so
`get() ?? { ...defaults }` (line 252) is the default state, the staleness
test of lines 262-269 runs on `lastSuccessfulConnection = null` (elapsed
infinite, `shouldReset = true`), and the creator returns the defaults with
`firstTimeConnection := shouldReset` (line 274).  The persist middleware
then rehydrates: when a snapshot is stored under `connection-storage`, its
two partialized fields are merged over the creator's result (zustand's
default shallow merge), and that merge is the constructed state.  The
staleness computation is therefore inert: its result is overwritten
whenever a snapshot exists and equals `true` anyway when none does. -/
def constructConnectionState (restored : Option PersistedConnectionFields)
    (now : Nat) (timeoutMinutes : Nat) : ConnectionState :=
  let initialState : ConnectionState := defaultConnectionState
  let shouldReset := shouldResetAt initialState.lastSuccessfulConnection now timeoutMinutes
  let creatorResult : ConnectionState :=
    { initialState with firstTimeConnection := shouldReset }
  match restored with
  | some r =>
    { creatorResult with
      firstTimeConnection := r.firstTimeConnection
      lastSuccessfulConnection := r.lastSuccessfulConnection }
  | none => creatorResult

/-- A persisted blob as `migrate` receives it (`useConnectionStore.ts`
lines 716-722): each known field may be absent/undefined (`none`);
`lastSuccessfulConnection` may also be present-but-null (`some none`).
`extraFields` stands for the unknown-but-present fields that the spread
`...persistedState` carries over. -/
structure PersistedBlob where
  firstTimeConnection : Option Bool
  lastSuccessfulConnection : Option (Option Nat)
  phaseStatuses : Option (ConnectionPhase → PhaseStatus)
  phaseTimestamps : Option (ConnectionPhase → Option Nat)
  extraFields : List (String × Nat)

/-- The record `migrate` returns: the three listed keys always present,
everything else carried over by the spread. -/
structure MigratedRecord where
  firstTimeConnection : Option Bool
  lastSuccessfulConnection : Option Nat
  phaseStatuses : ConnectionPhase → PhaseStatus
  phaseTimestamps : ConnectionPhase → Option Nat
  extraFields : List (String × Nat)

/-- The empty persisted blob, the embedding of `migrate({})`. -/
def emptyPersistedBlob : PersistedBlob where
  firstTimeConnection := none
  lastSuccessfulConnection := none
  phaseStatuses := none
  phaseTimestamps := none
  extraFields := []

/-- `migrate(persistedState)` (`useConnectionStore.ts` lines 716-722):
spread the input, back-fill `lastSuccessfulConnection ?? null` and default
the two phase maps.  The argument is `any`: on `null`/`undefined` the
member access `persistedState.lastSuccessfulConnection` raises a
`TypeError`, modelled by the `none` input returning an error. -/
def migrate : Option PersistedBlob → Except Unit MigratedRecord
  | none => Except.error ()
  | some p =>
    Except.ok
      { firstTimeConnection := p.firstTimeConnection
        lastSuccessfulConnection := p.lastSuccessfulConnection.join
        phaseStatuses := p.phaseStatuses.getD initialStatuses
        phaseTimestamps := p.phaseTimestamps.getD initialTimestamps
        extraFields := p.extraFields }

/-- The operations of the connection store that claims quantify over. -/
inductive StoreOp where
  | firstStart
  | reStart
  | goOn
  | goFail
  | cancel
  | resetStatuses
  | fullReset
  deriving DecidableEq, Repr

/-- Dispatch one operation; `now` is the instant the clock shows while the
operation runs (unused by the two reset operations, which read no clock). -/
def applyOp (o : StoreOp) (now : Nat) (w : World) : World :=
  match o with
  | StoreOp.firstStart => firstStart w now
  | StoreOp.reStart => reStart w now
  | StoreOp.goOn => goOn w now
  | StoreOp.goFail => goFail w now
  | StoreOp.cancel => cancel w now
  | StoreOp.resetStatuses => resetStatuses w
  | StoreOp.fullReset => fullReset w

/-- Run a list of timed operations left to right. -/
def runOps : List (StoreOp × Nat) → World → World
  | [], w => w
  | (o, t) :: rest, w => runOps rest (applyOp o t w)

/-- A world where at most one phase is in progress. -/
def atMostOneInProgress (w : World) : Prop :=
  ∀ p q : ConnectionPhase,
    w.conn.phaseStatuses p = PhaseStatus.inprogress →
    w.conn.phaseStatuses q = PhaseStatus.inprogress → p = q

/-- Executable test that no phase at all is in progress. -/
def noInProgress (w : World) : Bool :=
  decide (∀ p : ConnectionPhase, w.conn.phaseStatuses p ≠ PhaseStatus.inprogress)

/-- A trace is guarded when every `firstStart`/`reStart` in it is issued in
a state with no phase in progress. -/
def guardedTrace : List (StoreOp × Nat) → World → Bool
  | [], _ => true
  | (o, t) :: rest, w =>
    (match o with
     | StoreOp.firstStart => noInProgress w
     | StoreOp.reStart => noInProgress w
     | _ => true)
    && guardedTrace rest (applyOp o t w)

/-- Strengthened invariant: any in-progress phase is the current one. -/
def inProgressOnlyCurrent (w : World) : Prop :=
  ∀ p : ConnectionPhase,
    w.conn.phaseStatuses p = PhaseStatus.inprogress → p = w.conn.currentPhase

/-- The next phase in the fixed order, `none` after the last one; the
closed form of `phaseOrder[phaseOrder.indexOf(p) + 1]` used by `goOn`. -/
def nextPhaseOf : ConnectionPhase → Option ConnectionPhase
  | ConnectionPhase.checkIfMetaMaskInstalled =>
      some ConnectionPhase.checkIfMetaMaskUnlocked
  | ConnectionPhase.checkIfMetaMaskUnlocked =>
      some ConnectionPhase.checkIfMetaMaskConnectedToBSC
  | ConnectionPhase.checkIfMetaMaskConnectedToBSC =>
      some ConnectionPhase.checkOutMetaMaskAccount
  | ConnectionPhase.checkOutMetaMaskAccount => none

/-- Position of a phase in `phaseOrder`. -/
def phaseIndex : ConnectionPhase → Nat
  | ConnectionPhase.checkIfMetaMaskInstalled => 0
  | ConnectionPhase.checkIfMetaMaskUnlocked => 1
  | ConnectionPhase.checkIfMetaMaskConnectedToBSC => 2
  | ConnectionPhase.checkOutMetaMaskAccount => 3

/-- Run a list of `goOn` calls, one per listed instant. -/
def runGoOns : List Nat → World → World
  | [], w => w
  | t :: rest, w => runGoOns rest (goOn w t)

/-- The phase `goOn` advances to is the next one in the fixed order. -/
lemma goOn_conn_currentPhase (w : World) (now : Nat) :
    (goOn w now).conn.currentPhase =
      (nextPhaseOf w.conn.currentPhase).getD w.conn.currentPhase := by
  rcases w with ⟨⟨ftc, lsc, c, st, ts⟩, tl⟩
  cases c <;> rfl

/-- Statuses after `goOn`: current phase to `success`, then the next phase
(when there is one) to `inprogress`. -/
lemma goOn_conn_phaseStatuses (w : World) (now : Nat) :
    (goOn w now).conn.phaseStatuses =
      match nextPhaseOf w.conn.currentPhase with
      | some np =>
          updStatus (updStatus w.conn.phaseStatuses w.conn.currentPhase PhaseStatus.success)
            np PhaseStatus.inprogress
      | none => updStatus w.conn.phaseStatuses w.conn.currentPhase PhaseStatus.success := by
  rcases w with ⟨⟨ftc, lsc, c, st, ts⟩, tl⟩
  cases c <;> rfl

/-- Timestamps after `goOn`: current phase stamped `now`, then the next
phase (when there is one) stamped `now` as well. -/
lemma goOn_conn_phaseTimestamps (w : World) (now : Nat) :
    (goOn w now).conn.phaseTimestamps =
      match nextPhaseOf w.conn.currentPhase with
      | some np =>
          updStamp (updStamp w.conn.phaseTimestamps w.conn.currentPhase (some now))
            np (some now)
      | none => updStamp w.conn.phaseTimestamps w.conn.currentPhase (some now) := by
  rcases w with ⟨⟨ftc, lsc, c, st, ts⟩, tl⟩
  cases c <;> rfl

/-- `goOn` touches `lastSuccessfulConnection` exactly on the last phase. -/
lemma goOn_conn_lastSuccessfulConnection (w : World) (now : Nat) :
    (goOn w now).conn.lastSuccessfulConnection =
      if w.conn.currentPhase = ConnectionPhase.checkOutMetaMaskAccount then some now
      else w.conn.lastSuccessfulConnection := by
  rcases w with ⟨⟨ftc, lsc, c, st, ts⟩, tl⟩
  cases c <;> rfl

/-- `nextPhaseOf` is the closed form of the lookup `goOn` performs on
`phaseOrder`. -/
lemma nextPhaseOf_eq_phaseOrder_lookup (c : ConnectionPhase) :
    nextPhaseOf c =
      (if phaseOrder.indexOf c == phaseOrder.length - 1 then none
       else phaseOrder.get? (phaseOrder.indexOf c + 1)) := by
  cases c <;> rfl

/-- Unfolding of the executable `noInProgress` test. -/
lemma noInProgress_spec {w : World} (h : noInProgress w = true) :
    ∀ p : ConnectionPhase, w.conn.phaseStatuses p ≠ PhaseStatus.inprogress :=
  of_decide_eq_true h

/-- One guarded step preserves the strengthened invariant. -/
lemma applyOp_inProgressOnlyCurrent (o : StoreOp) (t : Nat) (w : World)
    (hg : o = StoreOp.firstStart ∨ o = StoreOp.reStart → noInProgress w = true)
    (h : inProgressOnlyCurrent w) :
    inProgressOnlyCurrent (applyOp o t w) := by
  cases o with
  | firstStart =>
    intro p hp
    simp only [applyOp, firstStart, updStatus] at hp ⊢
    by_cases hp1 : p = ConnectionPhase.checkIfMetaMaskInstalled
    · exact hp1
    · rw [if_neg hp1] at hp
      exact absurd hp (noInProgress_spec (hg (Or.inl rfl)) p)
  | reStart =>
    intro p hp
    simp only [applyOp, reStart, updStatus] at hp ⊢
    by_cases hp1 : p = ConnectionPhase.checkIfMetaMaskInstalled
    · exact hp1
    · rw [if_neg hp1] at hp
      exact absurd hp (noInProgress_spec (hg (Or.inr rfl)) p)
  | goOn =>
    intro p hp
    have hst := goOn_conn_phaseStatuses w t
    have hcur := goOn_conn_currentPhase w t
    simp only [applyOp] at hp ⊢
    rw [hst] at hp
    rw [hcur]
    cases hnp : nextPhaseOf w.conn.currentPhase with
    | some np =>
      rw [hnp] at hp
      simp only [Option.getD_some]
      by_cases h1 : p = np
      · exact h1
      · simp only [updStatus] at hp
        rw [if_neg h1] at hp
        by_cases h2 : p = w.conn.currentPhase
        · rw [if_pos h2] at hp
          exact absurd hp (by decide)
        · rw [if_neg h2] at hp
          exact absurd (h p hp) h2
    | none =>
      rw [hnp] at hp
      simp only [Option.getD_none]
      simp only [updStatus] at hp
      by_cases h2 : p = w.conn.currentPhase
      · rw [if_pos h2] at hp
        exact absurd hp (by decide)
      · rw [if_neg h2] at hp
        exact h p hp
  | goFail =>
    intro p hp
    simp only [applyOp, goFail, updStatus] at hp ⊢
    by_cases h2 : p = w.conn.currentPhase
    · rw [if_pos h2] at hp
      exact absurd hp (by decide)
    · rw [if_neg h2] at hp
      exact h p hp
  | cancel =>
    intro p hp
    simp only [applyOp, cancel, updStatus] at hp ⊢
    by_cases h2 : p = w.conn.currentPhase
    · rw [if_pos h2] at hp
      exact absurd hp (by decide)
    · rw [if_neg h2] at hp
      exact h p hp
  | resetStatuses =>
    intro p hp
    simp only [applyOp, resetStatuses] at hp
    cases p <;> simp [initialStatuses] at hp
  | fullReset =>
    intro p hp
    simp only [applyOp, fullReset] at hp
    cases p <;> simp [initialStatuses] at hp

/-- Running a guarded trace preserves the strengthened invariant. -/
lemma runOps_inProgressOnlyCurrent :
    ∀ (ops : List (StoreOp × Nat)) (w : World),
      inProgressOnlyCurrent w → guardedTrace ops w = true →
      inProgressOnlyCurrent (runOps ops w)
  | [], _, h, _ => h
  | (o, t) :: rest, w, h, hg => by
    simp only [guardedTrace, Bool.and_eq_true] at hg
    refine runOps_inProgressOnlyCurrent rest (applyOp o t w)
      (applyOp_inProgressOnlyCurrent o t w ?_ h) hg.2
    rintro (rfl | rfl)
    · simpa using hg.1
    · simpa using hg.1

/-- Prefixes of a guarded trace are guarded. -/
lemma guardedTrace_take :
    ∀ (ops : List (StoreOp × Nat)) (n : Nat) (w : World),
      guardedTrace ops w = true → guardedTrace (ops.take n) w = true
  | [], n, w, h => by simpa [List.take_nil] using h
  | _ :: _, 0, _, _ => rfl
  | (o, t) :: rest, n + 1, w, h => by
    simp only [List.take, guardedTrace, Bool.and_eq_true] at h ⊢
    exact ⟨h.1, guardedTrace_take rest n (applyOp o t w) h.2⟩

/-- The strengthened invariant gives at-most-one-in-progress. -/
lemma atMostOne_of_onlyCurrent {w : World} (h : inProgressOnlyCurrent w) :
    atMostOneInProgress w :=
  fun p q hp hq => (h p hp).trans (h q hq).symm

/-- The all-waiting initial world satisfies the strengthened invariant. -/
lemma initialWorld_onlyCurrent : inProgressOnlyCurrent initialWorld := by
  intro p hp
  cases p <;> simp [initialWorld, defaultConnectionState, initialStatuses] at hp

instance (w : World) : Decidable (atMostOneInProgress w) := by
  unfold atMostOneInProgress
  infer_instance

instance (w : World) : Decidable (inProgressOnlyCurrent w) := by
  unfold inProgressOnlyCurrent
  infer_instance

/-- Claim C1, as stated, is false on the code: in the trace
`firstStart(); goOn(); firstStart()` the final `firstStart` sets the first
phase to `inprogress` without touching the second phase, which `goOn` had
already set to `inprogress`, so two phases are in progress at once. -/
theorem claim_C1_counterexample :
    ¬ atMostOneInProgress
        (runOps [(StoreOp.firstStart, 0), (StoreOp.goOn, 1), (StoreOp.firstStart, 2)]
          initialWorld) := by
  decide

/-- Claim C1 (amended): for every sequence of state-machine operations
(`firstStart`, `reStart`, `goOn`, `goFail`, `cancel`, `resetStatuses`,
`fullReset`) applied from the initial all-waiting state in which every
`firstStart`/`reStart` is issued while no phase is `inprogress`, at every
observable point between operations at most one phase has status
`inprogress`. -/
theorem claim_C1 (ops : List (StoreOp × Nat))
    (h : guardedTrace ops initialWorld = true) (n : Nat) :
    atMostOneInProgress (runOps (ops.take n) initialWorld) :=
  atMostOne_of_onlyCurrent
    (runOps_inProgressOnlyCurrent (ops.take n) initialWorld initialWorld_onlyCurrent
      (guardedTrace_take ops n initialWorld h))

/-- Claim C1 witness: a concrete guarded trace, with the invariant checked
at its end. -/
theorem claim_C1_witness :
    guardedTrace
        [(StoreOp.firstStart, 0), (StoreOp.goOn, 1), (StoreOp.goFail, 2), (StoreOp.reStart, 3)]
        initialWorld = true
    ∧ atMostOneInProgress
        (runOps
          (([(StoreOp.firstStart, 0), (StoreOp.goOn, 1), (StoreOp.goFail, 2),
             (StoreOp.reStart, 3)]).take 4)
          initialWorld) :=
  ⟨by decide,
   claim_C1
     [(StoreOp.firstStart, 0), (StoreOp.goOn, 1), (StoreOp.goFail, 2), (StoreOp.reStart, 3)]
     (by decide) 4⟩

/-- One `goOn` moves the phase index one step forward, saturating at 3. -/
lemma goOn_phaseIndex (w : World) (now : Nat) :
    phaseIndex (goOn w now).conn.currentPhase =
      min (phaseIndex w.conn.currentPhase + 1) 3 := by
  rcases w with ⟨⟨ftc, lsc, c, st, ts⟩, tl⟩
  cases c <;> rfl

/-- Phase indices stay within the order. -/
lemma phaseIndex_le_three (c : ConnectionPhase) : phaseIndex c ≤ 3 := by
  cases c <;> simp [phaseIndex]

/-- Position of the current phase after a batch of `goOn` calls. -/
lemma runGoOns_phaseIndex :
    ∀ (ts : List Nat) (w : World),
      phaseIndex (runGoOns ts w).conn.currentPhase =
        min (phaseIndex w.conn.currentPhase + ts.length) 3
  | [], w => by
    simp only [runGoOns, List.length_nil, Nat.add_zero]
    exact (Nat.min_eq_left (phaseIndex_le_three w.conn.currentPhase)).symm
  | t :: rest, w => by
    simp only [runGoOns, List.length_cons]
    rw [runGoOns_phaseIndex rest (goOn w t), goOn_phaseIndex]
    omega

/-- A phase is determined by its index. -/
lemma phaseIndex_inj (c₁ c₂ : ConnectionPhase) (h : phaseIndex c₁ = phaseIndex c₂) :
    c₁ = c₂ := by
  revert h
  cases c₁ <;> cases c₂ <;> decide

/-- Looking up `phaseOrder` inverts `phaseIndex` on positions 0..3. -/
lemma phaseIndex_phaseOrder_getD (n : Nat) (hn : n ≤ 3) :
    phaseIndex (phaseOrder.getD n ConnectionPhase.checkIfMetaMaskInstalled) = n := by
  interval_cases n <;> rfl

/-- Claim C5: starting from `firstStart()` in the initial state, any number
of `goOn()` calls leaves `currentPhase` at position `min n 3` of the fixed
order, so the 4 phases are visited in exactly the order
installed → unlocked → correctNetwork → accountFetched, never skipping or
repeating a phase out of order (the statement covers every prefix, each
being itself a sequence of `goOn` calls). -/
theorem claim_C5 (t0 : Nat) (ts : List Nat) :
    (runGoOns ts (firstStart initialWorld t0)).conn.currentPhase =
      phaseOrder.getD (min ts.length 3) ConnectionPhase.checkIfMetaMaskInstalled := by
  apply phaseIndex_inj
  rw [runGoOns_phaseIndex, phaseIndex_phaseOrder_getD _ (by omega)]
  have h0 : phaseIndex (firstStart initialWorld t0).conn.currentPhase = 0 := rfl
  rw [h0]
  omega

/-- The next phase is never the phase itself. -/
lemma nextPhaseOf_ne (c np : ConnectionPhase) (h : nextPhaseOf c = some np) : c ≠ np := by
  revert h
  cases c <;> cases np <;> decide

/-- A world whose current phase is the last one, used as a concrete input. -/
def worldAtLastPhase : World :=
  { initialWorld with
    conn := { initialWorld.conn with
      currentPhase := ConnectionPhase.checkOutMetaMaskAccount } }

/-- Claim C4: `goOn()` on the last phase sets `lastSuccessfulConnection` to
the current instant and leaves `currentPhase` unchanged; `goOn()` on a
non-last phase leaves `lastSuccessfulConnection` unchanged, advances
`currentPhase` to the immediately following phase and sets that phase's
status to `inprogress`. -/
theorem claim_C4 (w : World) (now : Nat) :
    (w.conn.currentPhase = ConnectionPhase.checkOutMetaMaskAccount →
      (goOn w now).conn.lastSuccessfulConnection = some now
      ∧ (goOn w now).conn.currentPhase = w.conn.currentPhase)
    ∧ ∀ np, nextPhaseOf w.conn.currentPhase = some np →
      (goOn w now).conn.lastSuccessfulConnection = w.conn.lastSuccessfulConnection
      ∧ (goOn w now).conn.currentPhase = np
      ∧ (goOn w now).conn.phaseStatuses np = PhaseStatus.inprogress := by
  constructor
  · intro hlast
    refine ⟨?_, ?_⟩
    · rw [goOn_conn_lastSuccessfulConnection, if_pos hlast]
    · rw [goOn_conn_currentPhase, hlast]
      rfl
  · intro np hnp
    have hne : w.conn.currentPhase ≠ ConnectionPhase.checkOutMetaMaskAccount := by
      intro h
      rw [h] at hnp
      simp [nextPhaseOf] at hnp
    refine ⟨?_, ?_, ?_⟩
    · rw [goOn_conn_lastSuccessfulConnection, if_neg hne]
    · rw [goOn_conn_currentPhase, hnp]
      rfl
    · rw [goOn_conn_phaseStatuses, hnp]
      simp [updStatus]

/-- Claim C4 witness: the last phase stamps `lastSuccessfulConnection`,
a non-last phase advances. -/
theorem claim_C4_witness :
    (goOn worldAtLastPhase 7).conn.lastSuccessfulConnection = some 7
    ∧ (goOn initialWorld 5).conn.currentPhase = ConnectionPhase.checkIfMetaMaskUnlocked :=
  ⟨((claim_C4 worldAtLastPhase 7).1 rfl).1,
   ((claim_C4 initialWorld 5).2 ConnectionPhase.checkIfMetaMaskUnlocked rfl).2.1⟩

/-- Claim C3: after `firstStart(); goOn()` from the initial state, the
timeline entry (first phase, success) is non-null, it equals the connection
store's timestamp for the first phase at that moment, and the timeline
entry (second phase, inprogress) is non-null. -/
theorem claim_C3 (t1 t2 : Nat) :
    (goOn (firstStart initialWorld t1) t2).timeline
        ConnectionPhase.checkIfMetaMaskInstalled PhaseStatus.success ≠ none
    ∧ (goOn (firstStart initialWorld t1) t2).timeline
        ConnectionPhase.checkIfMetaMaskInstalled PhaseStatus.success =
      (goOn (firstStart initialWorld t1) t2).conn.phaseTimestamps
        ConnectionPhase.checkIfMetaMaskInstalled
    ∧ (goOn (firstStart initialWorld t1) t2).timeline
        ConnectionPhase.checkIfMetaMaskUnlocked PhaseStatus.inprogress ≠ none := by
  have h1 : (goOn (firstStart initialWorld t1) t2).timeline
      ConnectionPhase.checkIfMetaMaskInstalled PhaseStatus.success = some t2 := rfl
  have h2 : (goOn (firstStart initialWorld t1) t2).conn.phaseTimestamps
      ConnectionPhase.checkIfMetaMaskInstalled = some t2 := rfl
  have h3 : (goOn (firstStart initialWorld t1) t2).timeline
      ConnectionPhase.checkIfMetaMaskUnlocked PhaseStatus.inprogress = some t2 := rfl
  refine ⟨?_, ?_, ?_⟩
  · rw [h1]
    exact Option.some_ne_none t2
  · rw [h1, h2]
  · rw [h3]
    exact Option.some_ne_none t2

/-- Claim C6: after `fullReset()`, from any state whatsoever:
`firstTimeConnection` is true, `lastSuccessfulConnection` is null, the
current phase is the first one, all 4 phases are `waiting` with null
timestamps, and all 20 (phase, status) timeline entries are null. -/
theorem claim_C6 (w : World) :
    (fullReset w).conn.firstTimeConnection = true
    ∧ (fullReset w).conn.lastSuccessfulConnection = none
    ∧ (fullReset w).conn.currentPhase = ConnectionPhase.checkIfMetaMaskInstalled
    ∧ (∀ p, (fullReset w).conn.phaseStatuses p = PhaseStatus.waiting
        ∧ (fullReset w).conn.phaseTimestamps p = none)
    ∧ ∀ p s, (fullReset w).timeline p s = none := by
  refine ⟨rfl, rfl, rfl, fun p => ⟨?_, ?_⟩, fun p s => rfl⟩ <;> cases p <;> rfl

/-- Claim C7: `setPhaseStatus(P, waiting)` sets P's status to `waiting`
while keeping P's existing non-null timestamp and leaving every timeline
entry of P unchanged; for any status other than `waiting`,
`setPhaseStatus` stamps P with the current instant and mirrors the
(phase, status) pair into the timeline. -/
theorem claim_C7 (w : World) (p : ConnectionPhase) (T : Nat) (now : Nat)
    (hT : w.conn.phaseTimestamps p = some T) :
    ((setPhaseStatus w p PhaseStatus.waiting now).conn.phaseStatuses p = PhaseStatus.waiting
     ∧ (setPhaseStatus w p PhaseStatus.waiting now).conn.phaseTimestamps p = some T
     ∧ ∀ s, (setPhaseStatus w p PhaseStatus.waiting now).timeline p s = w.timeline p s)
    ∧ ∀ s, s ≠ PhaseStatus.waiting →
      (setPhaseStatus w p s now).conn.phaseStatuses p = s
      ∧ (setPhaseStatus w p s now).conn.phaseTimestamps p = some now
      ∧ (setPhaseStatus w p s now).timeline p s = some now := by
  constructor
  · refine ⟨?_, ?_, fun s => ?_⟩
    · simp [setPhaseStatus, updStatus]
    · simp [setPhaseStatus, updStamp, hT]
    · simp [setPhaseStatus]
  · intro s hs
    refine ⟨?_, ?_, ?_⟩
    · simp [setPhaseStatus, updStatus]
    · simp [setPhaseStatus, updStamp, hs]
    · simp [setPhaseStatus, setTimestamp, hs]

/-- Claim C7 witness: on a world where the first phase carries timestamp 4,
resetting it to `waiting` keeps 4, while setting `fail` stamps 9. -/
theorem claim_C7_witness :
    (setPhaseStatus (firstStart initialWorld 4) ConnectionPhase.checkIfMetaMaskInstalled
        PhaseStatus.waiting 9).conn.phaseTimestamps
        ConnectionPhase.checkIfMetaMaskInstalled = some 4
    ∧ (setPhaseStatus (firstStart initialWorld 4) ConnectionPhase.checkIfMetaMaskInstalled
        PhaseStatus.fail 9).conn.phaseTimestamps
        ConnectionPhase.checkIfMetaMaskInstalled = some 9 :=
  ⟨(claim_C7 (firstStart initialWorld 4) ConnectionPhase.checkIfMetaMaskInstalled 4 9
      rfl).1.2.1,
   ((claim_C7 (firstStart initialWorld 4) ConnectionPhase.checkIfMetaMaskInstalled 4 9
      rfl).2 PhaseStatus.fail (by decide)).2.1⟩

/-- Claim C10: `goOn()` has no precondition on the current phase's status:
from any state it marks the current phase `success`, and when the current
phase is the last one each further `goOn()` sets `lastSuccessfulConnection`
to its own instant again. -/
theorem claim_C10 (w : World) (now now2 : Nat) :
    (goOn w now).conn.phaseStatuses w.conn.currentPhase = PhaseStatus.success
    ∧ (w.conn.currentPhase = ConnectionPhase.checkOutMetaMaskAccount →
        (goOn w now).conn.lastSuccessfulConnection = some now
        ∧ (goOn (goOn w now) now2).conn.lastSuccessfulConnection = some now2) := by
  constructor
  · rw [goOn_conn_phaseStatuses]
    cases hnp : nextPhaseOf w.conn.currentPhase with
    | some np =>
      have hne := nextPhaseOf_ne w.conn.currentPhase np hnp
      simp [updStatus, hne]
    | none =>
      simp [updStatus]
  · intro hlast
    have hcur : (goOn w now).conn.currentPhase = ConnectionPhase.checkOutMetaMaskAccount := by
      rw [goOn_conn_currentPhase, hlast]
      rfl
    refine ⟨?_, ?_⟩
    · rw [goOn_conn_lastSuccessfulConnection, if_pos hlast]
    · rw [goOn_conn_lastSuccessfulConnection, if_pos hcur]

/-- Claim C10 witness: `goOn` from the all-waiting initial state marks the
first phase `success`; two `goOn` calls at the last phase stamp
`lastSuccessfulConnection` twice. -/
theorem claim_C10_witness :
    (goOn initialWorld 3).conn.phaseStatuses initialWorld.conn.currentPhase =
      PhaseStatus.success
    ∧ (goOn (goOn worldAtLastPhase 5) 6).conn.lastSuccessfulConnection = some 6 :=
  ⟨(claim_C10 initialWorld 3 0).1,
   ((claim_C10 worldAtLastPhase 5 6).2 rfl).2⟩

/-- Claim C2: on construction, `firstTimeConnection` (and
`lastSuccessfulConnection`) are restored from durable storage when present,
with defaults `true`/null when absent, and the constructed flag equals the
restored value for every snapshot — in particular for every restored state
whose `lastSuccessfulConnection` is within the timeout.  The flag is never
forced away from the restored value at all (the staleness check's result
is overwritten by the rehydration merge), so "forced to true only when the
elapsed time exceeds the timeout" holds: no forcing ever happens outside
that condition. -/
theorem claim_C2 (r : PersistedConnectionFields) (now timeoutMinutes : Nat) :
    (constructConnectionState (some r) now timeoutMinutes).firstTimeConnection =
      r.firstTimeConnection
    ∧ (constructConnectionState (some r) now timeoutMinutes).lastSuccessfulConnection =
      r.lastSuccessfulConnection
    ∧ (constructConnectionState none now timeoutMinutes).firstTimeConnection = true
    ∧ (constructConnectionState none now timeoutMinutes).lastSuccessfulConnection = none
    ∧ (∀ l, r.lastSuccessfulConnection = some l →
        (now : Int) - l ≤ (timeoutMinutes : Int) * 60000 →
        (constructConnectionState (some r) now timeoutMinutes).firstTimeConnection =
          r.firstTimeConnection) :=
  ⟨rfl, rfl, rfl, rfl, fun _ _ _ => rfl⟩

/-- Claim C2 witness: a snapshot restored within the timeout keeps its
persisted flag. -/
theorem claim_C2_witness :
    (constructConnectionState
        (some { firstTimeConnection := true, lastSuccessfulConnection := some 5 })
        5 10).firstTimeConnection = true :=
  (claim_C2 { firstTimeConnection := true, lastSuccessfulConnection := some 5 } 5 10).2.2.2.2
    5 rfl (by decide)

/-- Claim C8 evaluated on the code at its failing input: the module's own
header documents an automatic reset of the first-connection flag by
timeout, and lines 260-274 compute it, but the computation runs on the
still-undefined `get()` and the rehydration merge then writes the persisted
flag over it, so a snapshot persisted with `firstTimeConnection = false`
and a stale `lastSuccessfulConnection` (timestamp 1 at construction time
10^9 ms with a 1-minute timeout — elapsed far beyond the timeout, as the
first conjunct records) or a null one constructs to `false`, where the
claim requires `true`. -/
theorem claim_C8 :
    ((1000000000 : Int) - 1 > (1 : Int) * 60000)
    ∧ (constructConnectionState
        (some { firstTimeConnection := false, lastSuccessfulConnection := some 1 })
        1000000000 1).firstTimeConnection = false
    ∧ (constructConnectionState
        (some { firstTimeConnection := false, lastSuccessfulConnection := none })
        1000000000 1).firstTimeConnection = false :=
  ⟨by decide, rfl, rfl⟩

/-- Claim C9, as stated, is false on the code: `migrate` reads
`persistedState.lastSuccessfulConnection` before any guard, so the
`null`/`undefined` persisted value (a malformed blob the claim includes)
raises a `TypeError` instead of returning a record. -/
theorem claim_C9_counterexample : migrate none = Except.error () := rfl

/-- Claim C9 (amended): for every non-null persisted record (including the
empty record and records with missing fields), `migrate` does not throw and
returns a usable record in which `lastSuccessfulConnection` is back-filled
to null when missing (and kept when present), default phase-status and
phase-timestamp maps are supplied when absent, and present fields the
schema does not know — modelled by `firstTimeConnection` and
`extraFields` — are carried over unchanged; on the `null`/`undefined`
input, however, `migrate` throws. -/
theorem claim_C9 (b : PersistedBlob) :
    (migrate (some b)).toOption.isSome = true
    ∧ (b.lastSuccessfulConnection = none →
        (migrate (some b)).toOption.map MigratedRecord.lastSuccessfulConnection = some none)
    ∧ (∀ v, b.lastSuccessfulConnection = some v →
        (migrate (some b)).toOption.map MigratedRecord.lastSuccessfulConnection = some v)
    ∧ (b.phaseStatuses = none →
        (migrate (some b)).toOption.map MigratedRecord.phaseStatuses = some initialStatuses)
    ∧ (b.phaseTimestamps = none →
        (migrate (some b)).toOption.map MigratedRecord.phaseTimestamps = some initialTimestamps)
    ∧ (migrate (some b)).toOption.map MigratedRecord.firstTimeConnection =
        some b.firstTimeConnection
    ∧ (migrate (some b)).toOption.map MigratedRecord.extraFields = some b.extraFields := by
  refine ⟨rfl, ?_, ?_, ?_, ?_, rfl, rfl⟩
  · intro h
    simp [migrate, h]
    exact ⟨_, rfl, rfl⟩
  · intro v h
    simp [migrate, h]
    exact ⟨_, rfl, rfl⟩
  · intro h
    simp [migrate, h]
    exact ⟨_, rfl, rfl⟩
  · intro h
    simp [migrate, h]
    exact ⟨_, rfl, rfl⟩

/-- Claim C9 witness: migrating the empty record back-fills
`lastSuccessfulConnection` to null and supplies the default status map. -/
theorem claim_C9_witness :
    (migrate (some emptyPersistedBlob)).toOption.map MigratedRecord.lastSuccessfulConnection =
      some none
    ∧ (migrate (some emptyPersistedBlob)).toOption.map MigratedRecord.phaseStatuses =
      some initialStatuses :=
  ⟨(claim_C9 emptyPersistedBlob).2.1 rfl,
   (claim_C9 emptyPersistedBlob).2.2.2.1 rfl⟩

end RubasW3
